import Mathlib

/-!
# TRIP planet decision engine — verification development

Shallow embedding of the planet AI module (`src/ai.rs`) of the TRIP
repository.  The AI reacts to three kinds of events — energy pulses
(sunrays), explorer queries, and threat (asteroid) events — gated by an
active/inactive lifecycle flag, mutating a planet state consisting of an
ordered reserve of energy cells and an at-most-one rocket slot.

The `common_game` collaborator crate (planet state operations, the
recipe generator) is not part of the repository's sources; those
operations are modelled from the specification, each marked
`Modelled from the spec:` in its doc comment.  Everything else is a
direct translation of `src/ai.rs`.
-/

/-- An energy pulse (sunray).  Its payload is opaque to the engine; we
model it as a natural number so distinct pulses are distinguishable. -/
abbrev Sunray := Nat

/-- A charge slot of the reserve: either empty or holding the charge of
one consumed pulse. -/
inductive EnergyCell where
  | empty : EnergyCell
  | charged (s : Sunray) : EnergyCell
deriving DecidableEq, Repr

/-- `EnergyCell::is_charged` from `common_game`.  Modelled from the
spec: a slot is in binary state {empty, charged}. -/
def EnergyCell.is_charged : EnergyCell → Bool
  | .empty => false
  | .charged _ => true

/-- A constructed rocket.  Modelled from the spec: created by consuming
exactly one charged slot; we record the consumed charge so rocket
identity is observable. -/
structure Rocket where
  charge : Nat
deriving DecidableEq, Repr

/-- The entity state: identity, the ordered Reserve of charge slots and
the at-most-one rocket slot.  Modelled from the spec (the `PlanetState`
type lives in the `common_game` collaborator). -/
structure PlanetState where
  id : Nat
  cells : List EnergyCell
  rocket : Option Rocket
deriving DecidableEq, Repr

/-- Modelled from the spec: `cell.charge(s)` marks the slot at `index`
charged with the pulse's value (`PlanetState::cell_mut` + charge). -/
def PlanetState.cell_charge (st : PlanetState) (index : Nat) (s : Sunray) : PlanetState :=
  { st with cells := st.cells.set index (.charged s) }

/-- Modelled from the spec: whether the entity currently holds a rocket. -/
def PlanetState.has_rocket (st : PlanetState) : Bool :=
  st.rocket.isSome

/-- Modelled from the spec: `take_rocket` removes the rocket (if any)
from the entity state and returns it. -/
def PlanetState.take_rocket (st : PlanetState) : Option Rocket × PlanetState :=
  (st.rocket, { st with rocket := none })

/-- Modelled from the spec: `build_rocket(index)` consumes the charge of
the slot at `index` and creates a rocket, or rejects with a typed
failure when the reserve already holds a rocket, the slot is not
actually charged, or the index is out of range; a rejection mutates
nothing. -/
def PlanetState.build_rocket (st : PlanetState) (index : Nat) : Except String PlanetState :=
  if st.rocket.isSome then
    .error "rocket_already_exists"
  else
    match st.cells.get? index with
    | some (.charged v) =>
        .ok { st with cells := st.cells.set index .empty, rocket := some ⟨v⟩ }
    | some .empty => .error "cell_not_charged"
    | none => .error "invalid_cell_index"

/-- Number of charged slots in the Reserve. -/
def PlanetState.charged_count (st : PlanetState) : Nat :=
  st.cells.countP (fun c => c.is_charged)

/-- Basic resource kinds known to the game. -/
inductive BasicResourceType where
  | Oxygen | Hydrogen | Carbon | Silicon
deriving DecidableEq, Repr

/-- A basic resource value (opaque payloads modelled as naturals). -/
inductive BasicResource where
  | Hydrogen (v : Nat)
  | Oxygen (v : Nat)
  | Carbon (v : Nat)
  | Silicon (v : Nat)
deriving DecidableEq, Repr

/-- A complex resource value (opaque payloads modelled as naturals). -/
inductive ComplexResource where
  | Water (v : Nat)
  | Life (v : Nat)
  | Robot (v : Nat)
  | Diamond (v : Nat)
deriving DecidableEq, Repr

/-- Either a basic or a complex resource. -/
inductive GenericResource where
  | BasicResources (r : BasicResource)
  | ComplexResources (r : ComplexResource)
deriving DecidableEq, Repr

/-- A combine-resources request with its two operand payloads. -/
inductive ComplexResourceRequest where
  | Water (h o : Nat)
  | Diamond (c1 c2 : Nat)
  | Life (w c : Nat)
  | Robot (s l : Nat)
  | Dolphin (w l : Nat)
  | AIPartner (r d : Nat)
deriving DecidableEq, Repr

/-- The recipe catalog collaborator.  Modelled from the spec: its
oxygen-synthesis operation acts on one energy cell (consuming its
charge) and yields a resource unit or a typed failure; we keep the
operation abstract as a field so theorems cover both outcomes.  The
result is the cell's new state paired with the produced unit, `none`
denoting synthesis failure. -/
structure Generator where
  make_oxygen : EnergyCell → EnergyCell × Option Nat
  all_available_recipes : List BasicResourceType

/-- Modelled from the spec: the canonical recipe catalog — oxygen
synthesis consumes a charged slot's charge and yields a resource unit,
and fails on an uncharged slot. -/
def specGenerator : Generator where
  make_oxygen
    | .charged v => (.empty, some v)
    | .empty => (.empty, none)
  all_available_recipes := [BasicResourceType.Oxygen]

/-- The combination catalog collaborator.  Modelled from the spec: a
read-only enumeration of combination recipes (opaque here). -/
structure Combinator where
  all_available_recipes : List Nat

/-- Messages from an explorer to the planet (`ExplorerToPlanet`). -/
inductive ExplorerToPlanet where
  | SupportedResourceRequest (explorer_id : Nat)
  | GenerateResourceRequest (explorer_id : Nat) (resource : BasicResourceType)
  | SupportedCombinationRequest (explorer_id : Nat)
  | CombineResourceRequest (explorer_id : Nat) (msg : ComplexResourceRequest)
  | AvailableEnergyCellRequest (explorer_id : Nat)
deriving DecidableEq, Repr

/-- Responses from the planet to an explorer (`PlanetToExplorer`).  The
combine response carries `Err (reason, left, right)` exactly as in the
source; the success payload never occurs in this engine and is modelled
as `Nat`. -/
inductive PlanetToExplorer where
  | SupportedResourceResponse (resource_list : List BasicResourceType)
  | GenerateResourceResponse (resource : Option BasicResource)
  | SupportedCombinationResponse (combination_list : List Nat)
  | CombineResourceResponse
      (complex_response : Except (String × GenericResource × GenericResource) Nat)
  | AvailableEnergyCellResponse (available_cells : Nat)

/-- Snapshot state reported to the orchestrator.  Modelled from the
spec: `DummyPlanetState` mirrors the current planet state. -/
structure DummyPlanetState where
  id : Nat
  cells : List EnergyCell
  has_rocket : Bool
deriving DecidableEq, Repr

/-- Modelled from the spec: `PlanetState::to_dummy` converts the current
state into its snapshot. -/
def PlanetState.to_dummy (st : PlanetState) : DummyPlanetState :=
  ⟨st.id, st.cells, st.rocket.isSome⟩

/-- The AI: a lifecycle flag (`running`), initially false. -/
structure AI where
  running : Bool
deriving DecidableEq, Repr

/-- `AI::new()` — the AI begins inactive. -/
def AI.new : AI := ⟨false⟩

/-- `AI::is_running` — the lifecycle guard (logging dropped). -/
def AI.is_running (ai : AI) : Bool := ai.running

/-- `PlanetAI::on_start` — sets `running = true`. -/
def AI.on_start (ai : AI) : AI := { ai with running := true }

/-- `PlanetAI::on_stop` — sets `running = false`. -/
def AI.on_stop (ai : AI) : AI := { ai with running := false }

/-- `AI::get_generic_resources` — decomposes a combination request into
its two logical operand resources (translated verbatim from
`src/ai.rs`). -/
def AI.get_generic_resources :
    ComplexResourceRequest → GenericResource × GenericResource
  | .Water h o =>
      (.BasicResources (.Hydrogen h), .BasicResources (.Oxygen o))
  | .Diamond c1 c2 =>
      (.BasicResources (.Carbon c1), .BasicResources (.Carbon c2))
  | .Life w c =>
      (.ComplexResources (.Water w), .BasicResources (.Carbon c))
  | .Robot s l =>
      (.BasicResources (.Silicon s), .ComplexResources (.Life l))
  | .Dolphin w l =>
      (.ComplexResources (.Water w), .ComplexResources (.Life l))
  | .AIPartner r d =>
      (.ComplexResources (.Robot r), .ComplexResources (.Diamond d))

/-- The static `AI::handle_sunray(state, s)`: charge the first uncharged
cell (index-order scan) and attempt to build a rocket on that same
index; if no uncharged cell exists, mutate nothing. -/
def sunray_core (state : PlanetState) (s : Sunray) : PlanetState :=
  match state.cells.findIdx? (fun cell => !cell.is_charged) with
  | some index =>
      let st1 := state.cell_charge index s
      match st1.build_rocket index with
      | .ok st2 => st2
      | .error _ => st1
  | none => state

/-- `PlanetAI::handle_sunray` — lifecycle-gated wrapper around
`sunray_core`. -/
def AI.handle_sunray (ai : AI) (state : PlanetState) (s : Sunray) : PlanetState :=
  if ai.is_running then sunray_core state s else state

/-- `PlanetAI::handle_internal_state_req` — returns the snapshot
unconditionally (no lifecycle check in the source). -/
def AI.handle_internal_state_req (ai : AI) (state : PlanetState) :
    DummyPlanetState × PlanetState :=
  let _ := ai
  (state.to_dummy, state)

/-- `PlanetAI::handle_explorer_msg` — translated from `src/ai.rs`.
Returns the optional response together with the (possibly mutated)
state. -/
def AI.handle_explorer_msg (ai : AI) (state : PlanetState) (generator : Generator)
    (comb : Combinator) (msg : ExplorerToPlanet) :
    Option PlanetToExplorer × PlanetState :=
  if !ai.is_running then (none, state)
  else
    match msg with
    | .SupportedResourceRequest _ =>
        (some (.SupportedResourceResponse generator.all_available_recipes), state)
    | .GenerateResourceRequest _ .Oxygen =>
        match state.cells.findIdx? (fun cell => cell.is_charged) with
        | some index =>
            let step := generator.make_oxygen (state.cells.getD index .empty)
            let state2 := { state with cells := state.cells.set index step.1 }
            match step.2 with
            | some r =>
                (some (.GenerateResourceResponse (some (.Oxygen r))), state2)
            | none => (none, state2)
        | none => (none, state)
    | .GenerateResourceRequest _ _ => (none, state)
    | .SupportedCombinationRequest _ =>
        (some (.SupportedCombinationResponse comb.all_available_recipes), state)
    | .CombineResourceRequest _ m =>
        let lr := AI.get_generic_resources m
        (some (.CombineResourceResponse (.error ("unsupported_combination", lr.1, lr.2))),
          state)
    | .AvailableEnergyCellRequest _ =>
        let tmp := state.cells.countP (fun cell => cell.is_charged)
        let count := if tmp < 2 ^ 32 then tmp else 0
        (some (.AvailableEnergyCellResponse count), state)

/-- `PlanetAI::handle_asteroid` — translated from `src/ai.rs`: launch an
existing rocket, else build-then-launch from the first charged cell. -/
def AI.handle_asteroid (ai : AI) (state : PlanetState) :
    Option Rocket × PlanetState :=
  if !ai.is_running then (none, state)
  else if state.has_rocket then state.take_rocket
  else
    match state.cells.findIdx? (fun cell => cell.is_charged) with
    | some index =>
        match state.build_rocket index with
        | .ok st2 => st2.take_rocket
        | .error _ => (none, state)
    | none => (none, state)

/-- Modelled from the spec: the outer planet loop always acknowledges a
pulse with the entity's identity (`SunrayAck { planet_id }`), whatever
the handler did. -/
structure SunrayAck where
  planet_id : Nat
deriving DecidableEq, Repr

/-- Modelled from the spec: pulse handling as seen by the orchestrator —
the AI handler runs and the loop sends the identity-carrying
acknowledgment unconditionally. -/
def AI.handle_pulse (ai : AI) (state : PlanetState) (s : Sunray) :
    SunrayAck × PlanetState :=
  (⟨state.id⟩, ai.handle_sunray state s)

/-! ## Helper lemmas -/

/-- `List.findIdx?` returns the least index satisfying the predicate. -/
theorem findIdx?_first {α : Type} {p : α → Bool} {l : List α} {i : Nat}
    (h : l.findIdx? p = some i) :
    ∃ hi : i < l.length, p (l.get ⟨i, hi⟩) = true ∧
      ∀ j (hj : j < l.length), j < i → p (l.get ⟨j, hj⟩) = false := by
  have hex : ∃ x ∈ l, p x = true := by
    by_contra hc
    push_neg at hc
    have hnone : l.findIdx? p = none := by
      refine List.findIdx?_eq_none_iff.mpr ?_
      intro x hx
      simpa using hc x hx
    rw [hnone] at h
    exact Option.noConfusion h
  have hfi : l.findIdx p = i := by
    rw [List.findIdx_eq_findIdx?, h]
  have hlen : i < l.length := by
    have := List.findIdx_lt_length_of_exists hex
    omega
  refine ⟨hlen, ?_, ?_⟩
  · have := @List.findIdx_getElem _ p l (by omega)
    simpa [List.get_eq_getElem, hfi] using this
  · intro j hj hji
    have := @List.not_of_lt_findIdx _ p l j (by rw [hfi]; exact hji)
    simpa [List.get_eq_getElem] using this

/-- The planet's fields are unchanged by charging then consuming the same
slot when that slot's new value is written back. -/
theorem charged_count_set_charged (st : PlanetState) (i : Nat) (s : Sunray)
    (hi : i < st.cells.length) (hempty : st.cells[i].is_charged = false) :
    (st.cell_charge i s).charged_count = st.charged_count + 1 := by
  unfold PlanetState.cell_charge PlanetState.charged_count
  rw [List.countP_set (h := hi)]
  simp only [hempty]
  simp [EnergyCell.is_charged]

/-! ## Claims -/

/-- C1: while the engine is inactive (`running = false`), every explorer
query returns no response, every asteroid event returns no rocket, and a
sunray mutates nothing — the Reserve and the Rocket slot are returned
unchanged in each case. -/
theorem inactive_engine_no_response (ai : AI) (state : PlanetState)
    (g : Generator) (comb : Combinator) (msg : ExplorerToPlanet) (s : Sunray)
    (h : ai.running = false) :
    ai.handle_explorer_msg state g comb msg = (none, state) ∧
    ai.handle_asteroid state = (none, state) ∧
    ai.handle_sunray state s = state := by
  refine ⟨?_, ?_, ?_⟩ <;>
    simp [AI.handle_explorer_msg, AI.handle_asteroid, AI.handle_sunray,
      AI.is_running, h]

/-- Witness for C1 at a concrete inactive engine and populated state. -/
theorem inactive_engine_no_response_witness :
    AI.new.running = false ∧
    (AI.new.handle_explorer_msg ⟨7, [.charged 3, .empty], some ⟨5⟩⟩ specGenerator ⟨[]⟩
        (.AvailableEnergyCellRequest 1) = (none, ⟨7, [.charged 3, .empty], some ⟨5⟩⟩) ∧
      AI.new.handle_asteroid ⟨7, [.charged 3, .empty], some ⟨5⟩⟩ =
        (none, ⟨7, [.charged 3, .empty], some ⟨5⟩⟩) ∧
      AI.new.handle_sunray ⟨7, [.charged 3, .empty], some ⟨5⟩⟩ 4 =
        ⟨7, [.charged 3, .empty], some ⟨5⟩⟩) :=
  ⟨rfl, inactive_engine_no_response AI.new ⟨7, [.charged 3, .empty], some ⟨5⟩⟩
    specGenerator ⟨[]⟩ (.AvailableEnergyCellRequest 1) 4 rfl⟩

/-- C3: while active, if a rocket already exists, an asteroid event
returns exactly that rocket and only clears the rocket slot — the
Reserve (the `cells` field) is untouched. -/
theorem asteroid_existing_rocket (ai : AI) (state : PlanetState) (r : Rocket)
    (hrun : ai.running = true) (hr : state.rocket = some r) :
    ai.handle_asteroid state = (some r, { state with rocket := none }) := by
  simp [AI.handle_asteroid, AI.is_running, hrun, PlanetState.has_rocket, hr,
    PlanetState.take_rocket]

/-- Witness for C3: a state holding a rocket and two charged slots. -/
theorem asteroid_existing_rocket_witness :
    (AI.mk true).running = true ∧ (⟨2, [.charged 9, .charged 8], some ⟨4⟩⟩ : PlanetState).rocket = some ⟨4⟩ ∧
    (AI.mk true).handle_asteroid ⟨2, [.charged 9, .charged 8], some ⟨4⟩⟩ =
      (some ⟨4⟩, ⟨2, [.charged 9, .charged 8], none⟩) :=
  ⟨rfl, rfl, asteroid_existing_rocket (AI.mk true) ⟨2, [.charged 9, .charged 8], some ⟨4⟩⟩
    ⟨4⟩ rfl rfl⟩

/-- C9: the internal-state request is answered unconditionally with a
snapshot of the current planet state, for every value of the lifecycle
flag — inactive included — and the state is not mutated. -/
theorem internal_state_req_unconditional (ai : AI) (state : PlanetState) :
    ai.handle_internal_state_req state =
      (⟨state.id, state.cells, state.rocket.isSome⟩, state) := rfl

/-- C2: while active, a sunray charges the lowest-index empty slot (the
scan is index-order: that slot is empty and every earlier slot is
charged) and then a single Construction Attempt is made on that same
index; when no empty slot exists, the state is returned unchanged. -/
theorem sunray_charges_first_empty (ai : AI) (state : PlanetState) (s : Sunray)
    (hrun : ai.running = true) :
    (∀ i, state.cells.findIdx? (fun cell => !cell.is_charged) = some i →
      (∃ hi : i < state.cells.length,
        (state.cells.get ⟨i, hi⟩).is_charged = false ∧
        ∀ j (hj : j < state.cells.length), j < i →
          (state.cells.get ⟨j, hj⟩).is_charged = true) ∧
      ai.handle_sunray state s =
        (match (state.cell_charge i s).build_rocket i with
          | .ok st2 => st2
          | .error _ => state.cell_charge i s)) ∧
    (state.cells.findIdx? (fun cell => !cell.is_charged) = none →
      ai.handle_sunray state s = state) := by
  constructor
  · intro i hfind
    constructor
    · obtain ⟨hi, hp, hbefore⟩ := findIdx?_first hfind
      refine ⟨hi, by simpa using hp, ?_⟩
      intro j hj hji
      simpa using hbefore j hj hji
    · simp only [AI.handle_sunray, AI.is_running, hrun, if_true, sunray_core, hfind]
  · intro hfind
    simp only [AI.handle_sunray, AI.is_running, hrun, if_true, sunray_core, hfind]

/-- Witness for C2: slot 0 charged, slots 1 and 2 empty — the pulse
charges slot 1, and the immediate construction consumes it into a
rocket. -/
theorem sunray_charges_first_empty_witness :
    (AI.mk true).running = true ∧
    (AI.mk true).handle_sunray ⟨0, [.charged 5, .empty, .empty], none⟩ 9 =
      ⟨0, [.charged 5, .empty, .empty], some ⟨9⟩⟩ := by
  refine ⟨rfl, ?_⟩
  have h := (sunray_charges_first_empty (AI.mk true)
    ⟨0, [.charged 5, .empty, .empty], none⟩ 9 rfl).1 1 rfl
  rw [h.2]
  rfl

/-- C4: while active, every combine-resources request is answered with a
structured rejection carrying the fixed reason `"unsupported_combination"`
and the pure decomposition of the request into its two operand
resources, with no state mutation; the decomposition table is exactly
the one of `get_generic_resources`. -/
theorem combine_request_rejected (ai : AI) (state : PlanetState) (g : Generator)
    (comb : Combinator) (eid : Nat) (m : ComplexResourceRequest)
    (hrun : ai.running = true) :
    (ai.handle_explorer_msg state g comb (.CombineResourceRequest eid m) =
      (some (.CombineResourceResponse (.error ("unsupported_combination",
        (AI.get_generic_resources m).1, (AI.get_generic_resources m).2))), state)) ∧
    (∀ h o : Nat, AI.get_generic_resources (.Water h o) =
      (.BasicResources (.Hydrogen h), .BasicResources (.Oxygen o))) ∧
    (∀ c1 c2 : Nat, AI.get_generic_resources (.Diamond c1 c2) =
      (.BasicResources (.Carbon c1), .BasicResources (.Carbon c2))) ∧
    (∀ w c : Nat, AI.get_generic_resources (.Life w c) =
      (.ComplexResources (.Water w), .BasicResources (.Carbon c))) ∧
    (∀ si l : Nat, AI.get_generic_resources (.Robot si l) =
      (.BasicResources (.Silicon si), .ComplexResources (.Life l))) ∧
    (∀ w l : Nat, AI.get_generic_resources (.Dolphin w l) =
      (.ComplexResources (.Water w), .ComplexResources (.Life l))) ∧
    (∀ r d : Nat, AI.get_generic_resources (.AIPartner r d) =
      (.ComplexResources (.Robot r), .ComplexResources (.Diamond d))) := by
  refine ⟨?_, fun _ _ => rfl, fun _ _ => rfl, fun _ _ => rfl, fun _ _ => rfl,
    fun _ _ => rfl, fun _ _ => rfl⟩
  simp [AI.handle_explorer_msg, AI.is_running, hrun]

/-- Witness for C4: a concrete water combination request is rejected
with its hydrogen/oxygen operands, and the state is untouched. -/
theorem combine_request_rejected_witness :
    (AI.mk true).running = true ∧
    ((AI.mk true).handle_explorer_msg ⟨3, [.charged 1], some ⟨2⟩⟩ specGenerator ⟨[]⟩
        (.CombineResourceRequest 8 (.Water 10 11)) =
      (some (.CombineResourceResponse (.error ("unsupported_combination",
        .BasicResources (.Hydrogen 10), .BasicResources (.Oxygen 11)))),
        ⟨3, [.charged 1], some ⟨2⟩⟩) ∧
      (∀ h o : Nat, AI.get_generic_resources (.Water h o) =
        (.BasicResources (.Hydrogen h), .BasicResources (.Oxygen o))) ∧
      (∀ c1 c2 : Nat, AI.get_generic_resources (.Diamond c1 c2) =
        (.BasicResources (.Carbon c1), .BasicResources (.Carbon c2))) ∧
      (∀ w c : Nat, AI.get_generic_resources (.Life w c) =
        (.ComplexResources (.Water w), .BasicResources (.Carbon c))) ∧
      (∀ si l : Nat, AI.get_generic_resources (.Robot si l) =
        (.BasicResources (.Silicon si), .ComplexResources (.Life l))) ∧
      (∀ w l : Nat, AI.get_generic_resources (.Dolphin w l) =
        (.ComplexResources (.Water w), .ComplexResources (.Life l))) ∧
      (∀ r d : Nat, AI.get_generic_resources (.AIPartner r d) =
        (.ComplexResources (.Robot r), .ComplexResources (.Diamond d)))) :=
  ⟨rfl, combine_request_rejected (AI.mk true) ⟨3, [.charged 1], some ⟨2⟩⟩
    specGenerator ⟨[]⟩ 8 (.Water 10 11) rfl⟩

/-- C5: while active, a generate-resource request for oxygen scans the
Reserve in index order for the first charged slot (that slot is charged
and every earlier slot is not); on synthesis success the produced
oxygen is returned, on synthesis failure the response is `none` (not an
error value), and with no charged slot the response is `none` with the
state untouched; every non-oxygen resource kind always gets `none`. -/
theorem generate_resource_responses (ai : AI) (state : PlanetState) (g : Generator)
    (comb : Combinator) (eid : Nat) (hrun : ai.running = true) :
    (∀ i, state.cells.findIdx? (fun cell => cell.is_charged) = some i →
      (∃ hi : i < state.cells.length,
        (state.cells.get ⟨i, hi⟩).is_charged = true ∧
        ∀ j (hj : j < state.cells.length), j < i →
          (state.cells.get ⟨j, hj⟩).is_charged = false) ∧
      (∀ c2 r, g.make_oxygen (state.cells.getD i .empty) = (c2, some r) →
        (ai.handle_explorer_msg state g comb (.GenerateResourceRequest eid .Oxygen)).1 =
          some (.GenerateResourceResponse (some (.Oxygen r)))) ∧
      (∀ c2, g.make_oxygen (state.cells.getD i .empty) = (c2, none) →
        (ai.handle_explorer_msg state g comb (.GenerateResourceRequest eid .Oxygen)).1 =
          none)) ∧
    (state.cells.findIdx? (fun cell => cell.is_charged) = none →
      ai.handle_explorer_msg state g comb (.GenerateResourceRequest eid .Oxygen) =
        (none, state)) ∧
    (∀ rk : BasicResourceType, rk ≠ .Oxygen →
      ai.handle_explorer_msg state g comb (.GenerateResourceRequest eid rk) =
        (none, state)) := by
  refine ⟨?_, ?_, ?_⟩
  · intro i hfind
    refine ⟨?_, ?_, ?_⟩
    · obtain ⟨hi, hp, hbefore⟩ := findIdx?_first hfind
      exact ⟨hi, hp, fun j hj hji => by simpa using hbefore j hj hji⟩
    · intro c2 r hmk
      simp only [List.getD_eq_getElem?_getD] at hmk
      simp [AI.handle_explorer_msg, AI.is_running, hrun, hfind, hmk]
    · intro c2 hmk
      simp only [List.getD_eq_getElem?_getD] at hmk
      simp [AI.handle_explorer_msg, AI.is_running, hrun, hfind, hmk]
  · intro hfind
    simp [AI.handle_explorer_msg, AI.is_running, hrun, hfind]
  · intro rk hne
    cases rk with
    | Oxygen => exact absurd rfl hne
    | Hydrogen => simp [AI.handle_explorer_msg, AI.is_running, hrun]
    | Carbon => simp [AI.handle_explorer_msg, AI.is_running, hrun]
    | Silicon => simp [AI.handle_explorer_msg, AI.is_running, hrun]

/-- Witness for C5: with the spec-modelled generator and a reserve whose
first charged slot is at index 1, the oxygen request returns the
produced resource, and a hydrogen request is unanswered. -/
theorem generate_resource_responses_witness :
    (AI.mk true).running = true ∧
    specGenerator.make_oxygen
        ((⟨0, [.empty, .charged 4], none⟩ : PlanetState).cells.getD 1 .empty) =
      (.empty, some 4) ∧
    ((AI.mk true).handle_explorer_msg ⟨0, [.empty, .charged 4], none⟩ specGenerator ⟨[]⟩
        (.GenerateResourceRequest 2 .Oxygen)).1 =
      some (.GenerateResourceResponse (some (.Oxygen 4))) ∧
    (AI.mk true).handle_explorer_msg ⟨0, [.empty, .charged 4], none⟩ specGenerator ⟨[]⟩
        (.GenerateResourceRequest 2 .Hydrogen) =
      (none, ⟨0, [.empty, .charged 4], none⟩) := by
  refine ⟨rfl, rfl, ?_, ?_⟩
  · exact ((generate_resource_responses (AI.mk true) ⟨0, [.empty, .charged 4], none⟩
      specGenerator ⟨[]⟩ 2 rfl).1 1 rfl).2.1 .empty 4 rfl
  · exact (generate_resource_responses (AI.mk true) ⟨0, [.empty, .charged 4], none⟩
      specGenerator ⟨[]⟩ 2 rfl).2.2 .Hydrogen (by intro hcon; exact BasicResourceType.noConfusion hcon)

/-- The available-energy-cell response, computed for any active state
(shared by the C6 theorems). -/
theorem handle_available_cells (ai : AI) (state : PlanetState) (g : Generator)
    (comb : Combinator) (eid : Nat) (hrun : ai.running = true) :
    ai.handle_explorer_msg state g comb (.AvailableEnergyCellRequest eid) =
      (some (.AvailableEnergyCellResponse
        (if state.cells.countP (fun cell => cell.is_charged) < 2 ^ 32
          then state.cells.countP (fun cell => cell.is_charged) else 0)), state) := by
  simp [AI.handle_explorer_msg, AI.is_running, hrun]

/-- Counterexample to C6: on a reserve with `2 ^ 32 + 3` charged slots —
a count that does not fit the 32-bit response field — the handler
answers `0` (the conversion's default value), which is neither the
saturated value `2 ^ 32 - 1` nor the truncated value `(2 ^ 32 + 3) % 2 ^ 32 = 3`. -/
theorem available_cells_not_clamped :
    ((AI.mk true).handle_explorer_msg
        ⟨0, List.replicate (2 ^ 32 + 3) (.charged 0), none⟩ specGenerator ⟨[]⟩
        (.AvailableEnergyCellRequest 0)).1 =
      some (.AvailableEnergyCellResponse 0) ∧
    (⟨0, List.replicate (2 ^ 32 + 3) (.charged 0), none⟩ : PlanetState).charged_count =
      2 ^ 32 + 3 ∧
    (0 : Nat) ≠ min (2 ^ 32 + 3) (2 ^ 32 - 1) ∧
    (0 : Nat) ≠ (2 ^ 32 + 3) % 2 ^ 32 := by
  have hcount : List.countP (fun cell => cell.is_charged)
      (List.replicate (2 ^ 32 + 3) (EnergyCell.charged 0)) = 2 ^ 32 + 3 := by
    rw [List.countP_replicate]
    norm_num [EnergyCell.is_charged]
  have hlt : ¬ (2 ^ 32 + 3 < 2 ^ 32) := by omega
  refine ⟨?_, hcount, by norm_num, by norm_num⟩
  rw [handle_available_cells (AI.mk true)
    ⟨0, List.replicate (2 ^ 32 + 3) (.charged 0), none⟩ specGenerator ⟨[]⟩ 0 rfl]
  show some (PlanetToExplorer.AvailableEnergyCellResponse
      (if List.countP (fun cell => cell.is_charged)
            (List.replicate (2 ^ 32 + 3) (EnergyCell.charged 0)) < 2 ^ 32
        then List.countP (fun cell => cell.is_charged)
            (List.replicate (2 ^ 32 + 3) (EnergyCell.charged 0))
        else 0)) =
    some (PlanetToExplorer.AvailableEnergyCellResponse 0)
  rw [hcount, if_neg hlt]

/-- C6 as amended: while active, an available-energy-cell request is
answered with the charged-slot count when it fits the 32-bit response
field, and with the conversion's default value `0` (not a saturating
clamp) when it does not; the state is untouched.  In particular a
reserve with 3 of 5 slots charged answers 3. -/
theorem available_cells_amended (ai : AI) (state : PlanetState) (g : Generator)
    (comb : Combinator) (eid : Nat) (hrun : ai.running = true) :
    ai.handle_explorer_msg state g comb (.AvailableEnergyCellRequest eid) =
      (some (.AvailableEnergyCellResponse
        (if state.charged_count < 2 ^ 32 then state.charged_count else 0)), state) := by
  rw [handle_available_cells ai state g comb eid hrun]
  rfl

/-- Witness for the amended C6: 3 of 5 slots charged answers exactly 3. -/
theorem available_cells_amended_witness :
    (AI.mk true).running = true ∧
    (AI.mk true).handle_explorer_msg
        ⟨1, [.charged 1, .empty, .charged 2, .empty, .charged 3], none⟩ specGenerator ⟨[]⟩
        (.AvailableEnergyCellRequest 6) =
      (some (.AvailableEnergyCellResponse 3),
        ⟨1, [.charged 1, .empty, .charged 2, .empty, .charged 3], none⟩) := by
  refine ⟨rfl, ?_⟩
  rw [available_cells_amended (AI.mk true)
    ⟨1, [.charged 1, .empty, .charged 2, .empty, .charged 3], none⟩ specGenerator ⟨[]⟩ 6 rfl]
  rfl

/-- C8: from an inactive engine with an all-empty reserve of size
`n > 0`: activate, deliver one pulse (charging slot 0, whose charge is
immediately consumed into a rocket), then a threat event — the response
is the rocket built from that pulse, and the final charged-slot count is
exactly one less than the count right after the slot was charged
(i.e. before the construction). -/
theorem round_trip_rocket (n : Nat) (s : Sunray) (hn : 0 < n) :
    ((AI.new.on_start).handle_asteroid
        ((AI.new.on_start).handle_sunray ⟨0, List.replicate n .empty, none⟩ s)).1 =
      some ⟨s⟩ ∧
    ((⟨0, List.replicate n .empty, none⟩ : PlanetState).cell_charge 0 s).charged_count =
      ((AI.new.on_start).handle_asteroid
        ((AI.new.on_start).handle_sunray ⟨0, List.replicate n .empty, none⟩ s)).2.charged_count
        + 1 := by
  obtain ⟨m, rfl⟩ : ∃ m, n = m + 1 := ⟨n - 1, by omega⟩
  rw [List.replicate_succ]
  have hsun : (AI.new.on_start).handle_sunray
      ⟨0, .empty :: List.replicate m .empty, none⟩ s =
      ⟨0, .empty :: List.replicate m .empty, some ⟨s⟩⟩ := by
    simp [AI.handle_sunray, AI.is_running, AI.new, AI.on_start, sunray_core,
      List.findIdx?_cons, EnergyCell.is_charged, PlanetState.cell_charge,
      PlanetState.build_rocket, List.set]
  rw [hsun]
  constructor
  · simp [AI.handle_asteroid, AI.is_running, AI.new, AI.on_start,
      PlanetState.has_rocket, PlanetState.take_rocket]
  · simp [AI.handle_asteroid, AI.is_running, AI.new, AI.on_start,
      PlanetState.has_rocket, PlanetState.take_rocket, PlanetState.cell_charge,
      PlanetState.charged_count, List.set, List.countP_cons, List.countP_replicate,
      EnergyCell.is_charged]

/-- Witness for C8 on a reserve of size 5. -/
theorem round_trip_rocket_witness :
    0 < 5 ∧
    (((AI.new.on_start).handle_asteroid
        ((AI.new.on_start).handle_sunray ⟨0, List.replicate 5 .empty, none⟩ 3)).1 =
      some ⟨3⟩ ∧
    ((⟨0, List.replicate 5 .empty, none⟩ : PlanetState).cell_charge 0 3).charged_count =
      ((AI.new.on_start).handle_asteroid
        ((AI.new.on_start).handle_sunray ⟨0, List.replicate 5 .empty, none⟩ 3)).2.charged_count
        + 1) :=
  ⟨by decide, round_trip_rocket 5 3 (by decide)⟩

/-- C10: while active, when a pulse charges a slot and the immediate
Construction Attempt fails, that slot stays charged — the charged-slot
count rises by exactly one — and the pulse acknowledgment (which only
carries the entity identity) does not reflect the failure. -/
theorem sunray_build_failure_keeps_charge (ai : AI) (state : PlanetState) (s : Sunray)
    (i : Nat) (e : String) (hrun : ai.running = true)
    (hfind : state.cells.findIdx? (fun cell => !cell.is_charged) = some i)
    (hfail : (state.cell_charge i s).build_rocket i = .error e) :
    (ai.handle_sunray state s).charged_count = state.charged_count + 1 ∧
    (ai.handle_pulse state s).1 = ⟨state.id⟩ := by
  obtain ⟨hi, hp, _⟩ := findIdx?_first hfind
  have hempty : state.cells[i].is_charged = false := by
    simpa [List.get_eq_getElem] using hp
  constructor
  · have hres : ai.handle_sunray state s = state.cell_charge i s := by
      simp only [AI.handle_sunray, AI.is_running, hrun, if_true, sunray_core, hfind, hfail]
    rw [hres]
    exact charged_count_set_charged state i s hi hempty
  · rfl

/-- Witness for C10: one empty slot and an existing rocket, so the
in-pulse construction is rejected; the freshly charged slot remains
charged and the acknowledgment still carries the planet id. -/
theorem sunray_build_failure_keeps_charge_witness :
    (AI.mk true).running = true ∧
    (⟨3, [.empty], some ⟨2⟩⟩ : PlanetState).cells.findIdx?
        (fun cell => !cell.is_charged) = some 0 ∧
    ((⟨3, [.empty], some ⟨2⟩⟩ : PlanetState).cell_charge 0 7).build_rocket 0 =
      .error "rocket_already_exists" ∧
    (((AI.mk true).handle_sunray ⟨3, [.empty], some ⟨2⟩⟩ 7).charged_count =
        (⟨3, [.empty], some ⟨2⟩⟩ : PlanetState).charged_count + 1 ∧
      ((AI.mk true).handle_pulse ⟨3, [.empty], some ⟨2⟩⟩ 7).1 = ⟨3⟩) :=
  ⟨rfl, rfl, rfl, sunray_build_failure_keeps_charge (AI.mk true) ⟨3, [.empty], some ⟨2⟩⟩ 7 0
    "rocket_already_exists" rfl rfl rfl⟩

/-- `getD` after `set` at the written index (in range). -/
theorem getD_set_self {α : Type} (l : List α) (i : Nat) (a d : α) (hi : i < l.length) :
    (l.set i a).getD i d = a := by
  simp [List.getD_eq_getElem?_getD, List.getElem?_set, hi]

/-- `getD` after `set` at a different index. -/
theorem getD_set_ne {α : Type} (l : List α) {i j : Nat} (a d : α) (h : i ≠ j) :
    (l.set i a).getD j d = l.getD j d := by
  simp [List.getD_eq_getElem?_getD, List.getElem?_set, h]

/-- A charged cell is a `charged` constructor. -/
theorem is_charged_iff (c : EnergyCell) : c.is_charged = true ↔ ∃ v, c = .charged v := by
  cases c <;> simp [EnergyCell.is_charged]

/-- The spec-modelled oxygen synthesis always leaves the slot empty. -/
theorem specGenerator_make_oxygen_fst (c : EnergyCell) :
    (specGenerator.make_oxygen c).1 = .empty := by
  cases c <;> rfl

/-- Full description of active sunray handling when an empty slot exists
at index `i`: with no rocket present the charge is consumed into a new
rocket, otherwise the slot stays charged and the rocket slot is
untouched. -/
theorem handle_sunray_cases (ai : AI) (state : PlanetState) (s : Sunray) (i : Nat)
    (hrun : ai.running = true)
    (hfind : state.cells.findIdx? (fun cell => !cell.is_charged) = some i) :
    (state.rocket = none ∧
      ai.handle_sunray state s = ⟨state.id, state.cells.set i .empty, some ⟨s⟩⟩) ∨
    (state.rocket ≠ none ∧
      ai.handle_sunray state s = ⟨state.id, state.cells.set i (.charged s), state.rocket⟩) := by
  obtain ⟨hi, -, -⟩ := findIdx?_first hfind
  have hsu : ai.handle_sunray state s =
      (match (state.cell_charge i s).build_rocket i with
        | .ok st2 => st2
        | .error _ => state.cell_charge i s) := by
    simp only [AI.handle_sunray, AI.is_running, hrun, if_true, sunray_core, hfind]
  have hget : (state.cells.set i (EnergyCell.charged s))[i]? = some (EnergyCell.charged s) := by
    simp [List.getElem?_set, hi]
  cases hr : state.rocket with
  | none =>
    left
    refine ⟨rfl, ?_⟩
    have hb : (state.cell_charge i s).build_rocket i =
        .ok ⟨state.id, state.cells.set i .empty, some ⟨s⟩⟩ := by
      simp [PlanetState.build_rocket, PlanetState.cell_charge, hr, hget, List.set_set]
    rw [hsu, hb]
  | some r =>
    right
    refine ⟨by simp [hr], ?_⟩
    have hb : (state.cell_charge i s).build_rocket i = .error "rocket_already_exists" := by
      simp [PlanetState.build_rocket, PlanetState.cell_charge, hr]
    rw [hsu, hb]
    simp [PlanetState.cell_charge, hr]

/-- Full description of active asteroid handling: launch the existing
rocket, or build one from the first charged slot (consuming it), or do
nothing when neither exists. -/
theorem handle_asteroid_cases (ai : AI) (state : PlanetState)
    (hrun : ai.running = true) :
    (∃ r, state.rocket = some r ∧
      ai.handle_asteroid state = (some r, ⟨state.id, state.cells, none⟩)) ∨
    (state.rocket = none ∧ ∃ i v,
      state.cells.findIdx? (fun cell => cell.is_charged) = some i ∧
      i < state.cells.length ∧
      ai.handle_asteroid state = (some ⟨v⟩, ⟨state.id, state.cells.set i .empty, none⟩)) ∨
    (state.rocket = none ∧
      state.cells.findIdx? (fun cell => cell.is_charged) = none ∧
      ai.handle_asteroid state = (none, state)) := by
  cases hr : state.rocket with
  | some r =>
    left
    refine ⟨r, rfl, ?_⟩
    simp [AI.handle_asteroid, AI.is_running, hrun, PlanetState.has_rocket, hr,
      PlanetState.take_rocket]
  | none =>
    right
    cases hfind : state.cells.findIdx? (fun cell => cell.is_charged) with
    | some i =>
      left
      obtain ⟨hi, hp, -⟩ := findIdx?_first hfind
      obtain ⟨v, hv⟩ := (is_charged_iff _).mp hp
      refine ⟨rfl, i, v, rfl, hi, ?_⟩
      have hgetE : state.cells[i] = EnergyCell.charged v := by simpa using hv
      have hget : state.cells[i]? = some (EnergyCell.charged v) := by
        rw [List.getElem?_eq_getElem hi, hgetE]
      have hb : state.build_rocket i =
          .ok ⟨state.id, state.cells.set i .empty, some ⟨v⟩⟩ := by
        simp [PlanetState.build_rocket, hr, hget]
      simp [AI.handle_asteroid, AI.is_running, hrun, PlanetState.has_rocket, hr,
        hfind, hb, PlanetState.take_rocket]
    | none =>
      right
      refine ⟨rfl, rfl, ?_⟩
      simp [AI.handle_asteroid, AI.is_running, hrun, PlanetState.has_rocket, hr, hfind]

/-- Counterexample to C7: an oxygen generate-resource query consumes the
charge of slot 0 through oxygen synthesis — the slot transitions
charged→empty although no rocket is built, so "a charged slot never
transitions back to empty except by being consumed into a rocket" fails
for the query operation. -/
theorem charged_slot_emptied_without_rocket :
    ((⟨0, [.charged 7], none⟩ : PlanetState).cells.getD 0 .empty).is_charged = true ∧
    ((AI.mk true).handle_explorer_msg ⟨0, [.charged 7], none⟩ specGenerator ⟨[]⟩
        (.GenerateResourceRequest 1 .Oxygen)).2.cells = [.empty] ∧
    ((AI.mk true).handle_explorer_msg ⟨0, [.charged 7], none⟩ specGenerator ⟨[]⟩
        (.GenerateResourceRequest 1 .Oxygen)).2.rocket = none ∧
    (⟨0, [.charged 7], none⟩ : PlanetState).rocket = none :=
  ⟨rfl, rfl, rfl, rfl⟩

/-- C7 as amended: over every active operation — pulse, query (with the
spec-modelled catalog), threat — a slot transitions empty→charged at
most once per pulse and never during a query or threat; a charged slot
transitions back to empty only by being consumed into a rocket
(pulse/threat construction) or by oxygen synthesis during an oxygen
generate-resource query, which is the only query that can mutate the
Reserve and never touches the rocket slot. -/
theorem slot_transition_invariant (ai : AI) (state : PlanetState) (s : Sunray)
    (comb : Combinator) (msg : ExplorerToPlanet) (hrun : ai.running = true) :
    (∀ j, (state.cells.getD j .empty).is_charged = true →
      ((ai.handle_sunray state s).cells.getD j .empty).is_charged = true) ∧
    (∀ j k, (state.cells.getD j .empty).is_charged = false →
      (state.cells.getD k .empty).is_charged = false →
      ((ai.handle_sunray state s).cells.getD j .empty).is_charged = true →
      ((ai.handle_sunray state s).cells.getD k .empty).is_charged = true → j = k) ∧
    (∀ j, (state.cells.getD j .empty).is_charged = true →
      (((ai.handle_asteroid state).2.cells.getD j .empty).is_charged = true ∨
        (ai.handle_asteroid state).1.isSome = true)) ∧
    (∀ j, (state.cells.getD j .empty).is_charged = false →
      ((ai.handle_asteroid state).2.cells.getD j .empty).is_charged = false) ∧
    (∀ j, (state.cells.getD j .empty).is_charged = false →
      (((ai.handle_explorer_msg state specGenerator comb msg).2.cells.getD j
        .empty).is_charged = false)) ∧
    ((∀ e, msg ≠ .GenerateResourceRequest e .Oxygen) →
      (ai.handle_explorer_msg state specGenerator comb msg).2 = state) ∧
    ((ai.handle_explorer_msg state specGenerator comb msg).2.rocket = state.rocket) := by
  have hsunray :
      (∀ j, (state.cells.getD j .empty).is_charged = true →
        ((ai.handle_sunray state s).cells.getD j .empty).is_charged = true) ∧
      (∀ j k, (state.cells.getD j .empty).is_charged = false →
        (state.cells.getD k .empty).is_charged = false →
        ((ai.handle_sunray state s).cells.getD j .empty).is_charged = true →
        ((ai.handle_sunray state s).cells.getD k .empty).is_charged = true → j = k) := by
    cases hfind : state.cells.findIdx? (fun cell => !cell.is_charged) with
    | none =>
      have hid : ai.handle_sunray state s = state := by
        simp only [AI.handle_sunray, AI.is_running, hrun, if_true, sunray_core, hfind]
      rw [hid]
      refine ⟨fun j hj => hj, ?_⟩
      intro j k hj hk hj' hk'
      rw [hj] at hj'
      exact Bool.noConfusion hj'
    | some i =>
      obtain ⟨hi, hpi, -⟩ := findIdx?_first hfind
      have hiD : state.cells.getD i .empty = state.cells.get ⟨i, hi⟩ := by
        rw [List.getD_eq_getElem?_getD, List.getElem?_eq_getElem hi]
        rfl
      have hine : ∀ j, (state.cells.getD j .empty).is_charged = true → i ≠ j := by
        intro j hj hij
        rw [← hij, hiD] at hj
        have hfalse : (state.cells.get ⟨i, hi⟩).is_charged = false := by
          simpa using hpi
        rw [hfalse] at hj
        exact Bool.noConfusion hj
      rcases handle_sunray_cases ai state s i hrun hfind with ⟨-, hres⟩ | ⟨-, hres⟩ <;>
        rw [hres]
      · constructor
        · intro j hj
          rw [getD_set_ne _ _ _ (hine j hj)]
          exact hj
        · intro j k hj hk hj' hk'
          by_cases hij : i = j
          · rw [← hij, getD_set_self _ _ _ _ hi] at hj'
            exact absurd hj' (by simp [EnergyCell.is_charged])
          · rw [getD_set_ne _ _ _ hij] at hj'
            rw [hj] at hj'
            exact Bool.noConfusion hj'
      · constructor
        · intro j hj
          rw [getD_set_ne _ _ _ (hine j hj)]
          exact hj
        · intro j k hj hk hj' hk'
          by_cases hij : i = j
          · by_cases hik : i = k
            · omega
            · rw [getD_set_ne _ _ _ hik, hk] at hk'
              exact Bool.noConfusion hk'
          · rw [getD_set_ne _ _ _ hij, hj] at hj'
            exact Bool.noConfusion hj'
  have hast :
      (∀ j, (state.cells.getD j .empty).is_charged = true →
        (((ai.handle_asteroid state).2.cells.getD j .empty).is_charged = true ∨
          (ai.handle_asteroid state).1.isSome = true)) ∧
      (∀ j, (state.cells.getD j .empty).is_charged = false →
        ((ai.handle_asteroid state).2.cells.getD j .empty).is_charged = false) := by
    rcases handle_asteroid_cases ai state hrun with
      ⟨r, -, hres⟩ | ⟨-, i, v, -, hi, hres⟩ | ⟨-, -, hres⟩ <;> rw [hres]
    · exact ⟨fun j hj => Or.inr rfl, fun j hj => hj⟩
    · constructor
      · intro j hj
        exact Or.inr rfl
      · intro j hj
        by_cases hij : i = j
        · rw [← hij, getD_set_self _ _ _ _ hi]
          rfl
        · rw [getD_set_ne _ _ _ hij]
          exact hj
    · exact ⟨fun j hj => Or.inl hj, fun j hj => hj⟩
  have hexp :
      (ai.handle_explorer_msg state specGenerator comb msg).2 = state ∨
      ∃ e i, msg = .GenerateResourceRequest e .Oxygen ∧ i < state.cells.length ∧
        (ai.handle_explorer_msg state specGenerator comb msg).2 =
          ⟨state.id, state.cells.set i .empty, state.rocket⟩ := by
    cases msg with
    | SupportedResourceRequest e =>
      left; simp [AI.handle_explorer_msg, AI.is_running, hrun]
    | SupportedCombinationRequest e =>
      left; simp [AI.handle_explorer_msg, AI.is_running, hrun]
    | CombineResourceRequest e m =>
      left; simp [AI.handle_explorer_msg, AI.is_running, hrun]
    | AvailableEnergyCellRequest e =>
      left; simp [AI.handle_explorer_msg, AI.is_running, hrun]
    | GenerateResourceRequest e rk =>
      cases rk with
      | Oxygen =>
        cases hfind : state.cells.findIdx? (fun cell => cell.is_charged) with
        | none =>
          left
          simp [AI.handle_explorer_msg, AI.is_running, hrun, hfind]
        | some i =>
          right
          obtain ⟨hi, -, -⟩ := findIdx?_first hfind
          refine ⟨e, i, rfl, hi, ?_⟩
          cases hmk : (specGenerator.make_oxygen (state.cells.getD i .empty)).2 with
          | some r =>
            simp only [List.getD_eq_getElem?_getD] at hmk
            simp [AI.handle_explorer_msg, AI.is_running, hrun, hfind, hmk,
              specGenerator_make_oxygen_fst]
          | none =>
            simp only [List.getD_eq_getElem?_getD] at hmk
            simp [AI.handle_explorer_msg, AI.is_running, hrun, hfind, hmk,
              specGenerator_make_oxygen_fst]
      | Hydrogen => left; simp [AI.handle_explorer_msg, AI.is_running, hrun]
      | Carbon => left; simp [AI.handle_explorer_msg, AI.is_running, hrun]
      | Silicon => left; simp [AI.handle_explorer_msg, AI.is_running, hrun]
  refine ⟨hsunray.1, hsunray.2, hast.1, hast.2, ?_, ?_, ?_⟩
  · intro j hj
    rcases hexp with heq | ⟨e, i, -, hi, heq⟩ <;> rw [heq]
    · exact hj
    · by_cases hij : i = j
      · rw [← hij]
        show ((state.cells.set i EnergyCell.empty).getD i .empty).is_charged = false
        rw [getD_set_self _ _ _ _ hi]
        rfl
      · show ((state.cells.set i EnergyCell.empty).getD j .empty).is_charged = false
        rw [getD_set_ne _ _ _ hij]
        exact hj
  · intro hne
    rcases hexp with heq | ⟨e, i, hmsg, -, -⟩
    · exact heq
    · exact absurd hmsg (hne e)
  · rcases hexp with heq | ⟨e, i, -, -, heq⟩ <;> rw [heq]

/-- Witness for the amended C7 at a concrete active engine: slot 0 is
charged before a pulse and remains charged after it. -/
theorem slot_transition_invariant_witness :
    (AI.mk true).running = true ∧
    (((AI.mk true).handle_sunray ⟨0, [.charged 5, .empty], none⟩ 9).cells.getD 0
        .empty).is_charged = true := by
  refine ⟨rfl, ?_⟩
  have h := slot_transition_invariant (AI.mk true) ⟨0, [.charged 5, .empty], none⟩ 9 ⟨[]⟩
    (.SupportedResourceRequest 0) rfl
  exact h.1 0 rfl
